import Mathlib

/-
  Verification of the market-analyst repository's core subsystem:
  trading calendar (src/utils/trading_calendar.py), basis engine
  (src/analyzer/analyzer.py, Analyzer.analyze_basis), validators
  (src/utils/data_validator.py), quality scoring (src/utils/data_quality.py)
  and the retry wrapper (src/utils/data_retry.py).

  Modelling conventions (shallow embedding):
  - A calendar date is its day number (an integer, days since 1970-01-01,
    the proleptic Gregorian calendar).  `daysFromCivil`/`civilFromDays`
    convert between (year, month, day) fields and day numbers; they are the
    standard exact integer algorithms for the Gregorian calendar, standing
    in for Python's `datetime` arithmetic (`timedelta` is day-number
    addition, `.weekday()` is `weekday` below, `.year`/`.month` are the
    civil fields).
  - Python numbers are modelled as rationals.  Every concrete number a
    theorem below evaluates is exactly representable as a double and every
    intermediate float operation on those concrete inputs is exact (or, for
    10/4000*100, verified to round to the same double 0.25), so the
    rational model agrees with the float behaviour at every evaluated
    point.  `round(x, 2)` is Python's round-half-to-even at two decimals
    (`pyRound2`).
  - Python dicts are association lists (`dictGet` is `dict.get`: first
    binding wins; actual dicts have unique keys, which theorems needing it
    take as a nodup hypothesis).  Optional / possibly-missing dict fields
    are `Option` fields.  Python truthiness of a value with default:
    a string is truthy iff nonempty, a number iff nonzero, a dict value
    (quote) iff present and non-falsy; each check below mirrors the
    corresponding `if not ...` of the source.
  - Error/warning message strings are an inductive type `Msg` with one
    constructor per f-string template of the source; distinct templates
    have distinct constant prefixes, so distinct constructors correspond
    to distinct strings and equal constructors with equal arguments to
    equal strings.
  - The three contract-type strings "当月" / "下季" / "隔季" are the
    enumeration `ContractType` (currentMonth / nextQuarter / farQuarter).
-/

/-! ## Trading calendar (src/utils/trading_calendar.py) -/

/-- Day number of a Gregorian civil date, 1970-01-01 = 0
(Python `datetime` date arithmetic). -/
def daysFromCivil (y0 m d : ℤ) : ℤ :=
  let y := y0 - (if m ≤ 2 then 1 else 0)
  let era := Int.fdiv y 400
  let yoe := y - era * 400
  let doy := (153 * (m + (if 2 < m then -3 else 9)) + 2) / 5 + d - 1
  let doe := yoe * 365 + yoe / 4 - yoe / 100 + doy
  era * 146097 + doe - 719468

/-- Civil (year, month, day) fields of a day number. -/
def civilFromDays (z0 : ℤ) : ℤ × ℤ × ℤ :=
  let z := z0 + 719468
  let era := Int.fdiv z 146097
  let doe := z - era * 146097
  let yoe := (doe - doe / 1460 + doe / 36524 - doe / 146096) / 365
  let y := yoe + era * 400
  let doy := doe - (365 * yoe + yoe / 4 - yoe / 100)
  let mp := (5 * doy + 2) / 153
  let d := doy - (153 * mp + 2) / 5 + 1
  let m := mp + (if mp < 10 then 3 else -9)
  (y + (if m ≤ 2 then 1 else 0), m, d)

/-- Python `date.weekday()`: Monday = 0, ..., Sunday = 6
(1970-01-01 was a Thursday). -/
def weekday (z : ℤ) : ℤ := (z + 3) % 7

/-- HOLIDAYS_2026 of trading_calendar.py, as (year, month, day) triples.
The source compares `date.strftime("%Y-%m-%d")` against literal strings;
that zero-padded rendering is injective on civil dates, so string
membership there is triple membership here. -/
def HOLIDAYS_2026 : List (ℤ × ℤ × ℤ) :=
  [(2026, 1, 1),
   (2026, 1, 28), (2026, 1, 29), (2026, 1, 30), (2026, 1, 31),
   (2026, 2, 1), (2026, 2, 2), (2026, 2, 3), (2026, 2, 14), (2026, 2, 15),
   (2026, 4, 4), (2026, 4, 5), (2026, 4, 6),
   (2026, 5, 1), (2026, 5, 2), (2026, 5, 3), (2026, 5, 4), (2026, 5, 5),
   (2026, 6, 19), (2026, 6, 20), (2026, 6, 21),
   (2026, 10, 1), (2026, 10, 2), (2026, 10, 3), (2026, 10, 4),
   (2026, 10, 5), (2026, 10, 6), (2026, 10, 7), (2026, 10, 10)]

/-- `is_weekend` -/
def is_weekend (z : ℤ) : Bool := 5 ≤ weekday z

/-- `is_holiday` -/
def is_holiday (z : ℤ) : Bool := HOLIDAYS_2026.contains (civilFromDays z)

/-- `is_trading_day` -/
def is_trading_day (z : ℤ) : Bool := !is_weekend z && !is_holiday z

/-- `get_trading_days_between`: inclusive day-by-day count of trading days
from `start` to `end`; the `while current <= end_date` loop is the range
below (empty when start > end). -/
def get_trading_days_between (start_date end_date : ℤ) : ℤ :=
  (((List.range (end_date + 1 - start_date).toNat).map (fun i => start_date + i)).countP
    (fun z => is_trading_day z) : ℕ)

/-- `get_futures_expiry_date`: third Friday of the month
(first Friday of the month plus 14 days). -/
def get_futures_expiry_date (year month : ℤ) : ℤ :=
  let first_day := daysFromCivil year month 1
  let days_until_friday := (4 - weekday first_day) % 7
  let first_friday := first_day + days_until_friday
  first_friday + 14

/-- ContractType: 当月 / 下季 / 隔季. -/
inductive ContractType where
  | currentMonth
  | nextQuarter
  | farQuarter
deriving DecidableEq, Repr

/-- `get_contract_expiry` (the unknown-contract-type ValueError branch is
unreachable over the enumeration). -/
def get_contract_expiry (contract_type : ContractType) (year month : ℤ) : ℤ :=
  match contract_type with
  | .currentMonth => get_futures_expiry_date year month
  | .nextQuarter =>
      if month = 12 then get_futures_expiry_date (year + 1) 1
      else get_futures_expiry_date year (month + 1)
  | .farQuarter =>
      if 11 ≤ month then get_futures_expiry_date (year + 1) (month - 10)
      else get_futures_expiry_date year (month + 2)

/-- `get_trading_days_to_expiry` (the expiry month is taken from
`from_date.year` / `from_date.month`). -/
def get_trading_days_to_expiry (contract_type : ContractType) (from_date : ℤ) : ℤ :=
  let c := civilFromDays from_date
  get_trading_days_between from_date (get_contract_expiry contract_type c.1 c.2.1)

/-! ## Basis engine (src/analyzer/analyzer.py, Analyzer.analyze_basis) -/

/-- `dict.get`: look a key up in an association list. -/
def dictGet {κ ν : Type} [DecidableEq κ] : List (κ × ν) → κ → Option ν
  | [], _ => none
  | (k', v) :: t, k => if k' = k then some v else dictGet t k

/-- INDEX_CODE_MAP of analyzer.py. -/
def INDEX_CODE_MAP : List (String × String) :=
  [("sh000001", "上证指数"), ("sz399001", "深证成指"), ("sh000300", "沪深300"),
   ("sh000905", "中证500"), ("sh000852", "中证1000"), ("sh000016", "上证50"),
   ("sh000688", "科创50"), ("sz399006", "创业板指")]

/-- FUTURES_SPOT_MAP of analyzer.py. -/
def FUTURES_SPOT_MAP : List (String × String) :=
  [("IF", "sh000300"), ("IC", "sh000905"), ("IM", "sh000852"), ("IH", "sh000016")]

/-- One record of a market payload's `data` list; all fields read via
`item.get(...)` are optional. -/
structure MarketItem where
  code : Option String
  name : Option String
  price : Option ℚ
  change_percent : Option ℚ
deriving DecidableEq, Repr

/-- One futures quote dict; only its `price` field is ever read.  A falsy
quote value (None or an empty dict) is `none` at the use sites below. -/
structure FuturesQuote where
  price : Option ℚ
deriving DecidableEq, Repr

/-- The per-code contracts dict of a futures payload. -/
abbrev Contracts := List (ContractType × Option FuturesQuote)

/-- The `data` dict of a futures payload. -/
abbrev FuturesMap := List (String × Contracts)

/-- Python's banker's rounding of a rational to an integer
(round half to even). -/
def roundHalfEven (x : ℚ) : ℤ :=
  let f := ⌊x⌋
  let r := x - f
  if r < 1 / 2 then f
  else if 1 / 2 < r then f + 1
  else if f % 2 = 0 then f else f + 1

/-- Python `round(x, 2)`: round half to even at two decimal places. -/
def pyRound2 (x : ℚ) : ℚ := (roundHalfEven (x * 100) : ℚ) / 100

/-- The spot-price dict built by analyze_basis from the market payload:
each item with a truthy `code` and truthy `price` stores its price
(later items overwrite earlier ones, as dict assignment does). -/
def build_spot_prices (items : List MarketItem) : String → Option ℚ :=
  items.foldl
    (fun spot item =>
      match item.code, item.price with
      | some c, some p => if c ≠ "" ∧ p ≠ 0 then Function.update spot c (some p) else spot
      | _, _ => spot)
    (fun _ => none)


/-- A produced basis record (the dict appended to `results`). -/
structure BasisRecord where
  index : String
  index_name : String
  contract : ContractType
  futures_price : ℚ
  spot_price : ℚ
  basis : ℚ
  basis_percent : ℚ
  annualized_basis : ℚ
  trading_days : ℤ
deriving DecidableEq, Repr

/-- The trading-days value actually used as annualization divisor:
computed days to expiry, replaced by the fixed fallback horizon
(当月 15, 下季 35, 隔季 70) when it is not positive
(analyzer.py lines 173-177). -/
def effective_trading_days (contract_type : ContractType) (today : ℤ) : ℤ :=
  let trading_days := get_trading_days_to_expiry contract_type today
  if trading_days ≤ 0 then
    (if contract_type = .currentMonth then 15
     else if contract_type = .nextQuarter then 35 else 70)
  else trading_days

/-- The dict appended to `results` for one surviving
(futures_code, contract_type) pair. -/
def basis_record (futures_code : String) (spot_code : Option String)
    (spot_price : ℚ) (today : ℤ) (contract_type : ContractType)
    (contract_data : FuturesQuote) : BasisRecord :=
  let futures_price := contract_data.price.getD 0
  let basis := futures_price - spot_price
  let basis_percent := basis / spot_price * 100
  let trading_days := effective_trading_days contract_type today
  let annualized_basis := basis_percent * (365 / (trading_days : ℚ))
  { index := futures_code
    index_name := (match spot_code with
                   | some sc => (dictGet INDEX_CODE_MAP sc).getD futures_code
                   | none => futures_code)
    contract := contract_type
    futures_price := futures_price
    spot_price := spot_price
    basis := pyRound2 basis
    basis_percent := pyRound2 basis_percent
    annualized_basis := pyRound2 annualized_basis
    trading_days := trading_days }

/-- Body of the inner contract loop of analyze_basis: skip a falsy quote,
skip a falsy price, otherwise emit the record. -/
def analyze_basis_contract (futures_code : String) (spot_code : Option String)
    (spot_price : ℚ) (today : ℤ) (c : ContractType × Option FuturesQuote) :
    List BasisRecord :=
  match c.2 with
  | none => []
  | some contract_data =>
    if contract_data.price.getD 0 = 0 then []
    else [basis_record futures_code spot_code spot_price today c.1 contract_data]

/-- The spot price the outer loop reads for one futures code
(`spot_prices.get(spot_code, 0)` after `spot_code = FUTURES_SPOT_MAP.get(...)`). -/
def code_spot_price (spot : String → Option ℚ) (futures_code : String) : ℚ :=
  match dictGet FUTURES_SPOT_MAP futures_code with
  | none => 0
  | some sc => (spot sc).getD 0

/-- Body of the outer futures-code loop of analyze_basis: skip the code
when the mapped spot price is falsy. -/
def analyze_basis_code (spot : String → Option ℚ) (today : ℤ)
    (p : String × Contracts) : List BasisRecord :=
  let spot_code := dictGet FUTURES_SPOT_MAP p.1
  let spot_price := code_spot_price spot p.1
  if spot_price = 0 then []
  else p.2.flatMap (analyze_basis_contract p.1 spot_code spot_price today)

/-- The `spot_price` value analyze_basis reads for a futures code, in
terms of the market payload:
`spot_prices.get(FUTURES_SPOT_MAP.get(futures_code), 0)`. -/
def spot_price_for (items : List MarketItem) (futures_code : String) : ℚ :=
  code_spot_price (build_spot_prices items) futures_code

/-- `results.sort(key=annualized_basis, reverse=True)`: stable sort,
descending by annualized basis (insertionSort is stable, so it agrees
with Python's stable sort for this key). -/
def sort_by_annualized_desc (l : List BasisRecord) : List BasisRecord :=
  l.insertionSort (fun a b => b.annualized_basis ≤ a.annualized_basis)

/-- `Analyzer.analyze_basis`.  The source reads `datetime.now()` through
`get_trading_days_to_expiry`; that hidden input is the explicit `today`
day number here.  A falsy market or futures payload returns []. -/
def analyze_basis (market_data : Option (List MarketItem))
    (futures_data : Option FuturesMap) (today : ℤ) : List BasisRecord :=
  match market_data, futures_data with
  | some items, some futures =>
      let spot := build_spot_prices items
      sort_by_annualized_desc (futures.flatMap (analyze_basis_code spot today))
  | _, _ => []

/-! ## Validators (src/utils/data_validator.py) -/

/-- Error/warning messages: one constructor per f-string template of the
source.  The two "数据为空" templates of the news check and news validator
(and of the futures check and futures validator) are literally the same
string, so they share a constructor; the market ones differ
("行情数据为空" vs "数据为空") and do not. -/
inductive Msg where
  | market_empty                                          -- "数据为空"
  | missing_indices (missing : List String)               -- "缺少指数: {missing}"
  | missing_field (field : String)                        -- "缺少字段: {field}"
  | abnormal_price (price : ℚ)                            -- "价格异常: {price}"
  | abnormal_change (change : ℚ)                          -- "涨跌幅异常: {change}%"
  | futures_data_empty                                    -- "期货数据为空"
  | missing_futures (code : String)                       -- "缺少期货数据: {code}"
  | missing_contract (code : String) (ct : ContractType)  -- "缺少 {code} {ct} 合约数据"
  | missing_contract_price (code : String) (ct : ContractType)  -- "缺少 {code} {ct} 价格"
  | news_data_empty                                       -- "新闻数据为空"
  | news_too_few (count : ℕ)                              -- "新闻数量过少: {count}条"
  | missing_title                                         -- "缺少标题"
  | missing_category                                      -- "缺少分类"
  | unknown_category (category : String)                  -- "未知分类: {category}"
  | missing_index                                         -- "缺少指数代码"
  | missing_contract_field                                -- "缺少合约类型"
  | missing_futures_price                                 -- "缺少期货价格"
  | missing_spot_price                                    -- "缺少现货价格"
  | large_basis (basis : ℚ)                               -- "基差绝对值较大: {basis}"
  | abnormal_annualized (ab : ℚ)                          -- "年化基差异常: {ab}%"
  | market_data_empty                                     -- "行情数据为空"
  | basis_data_empty                                      -- "基差数据为空"
  | futures_incomplete (filled total : ℕ)                 -- "期货合约不完整: {filled}/{total}"
deriving DecidableEq, Repr

/-- ValidationResult of data_validator.py. -/
structure ValidationResult where
  valid : Bool
  errors : List Msg
  warnings : List Msg
deriving DecidableEq, Repr

namespace MarketDataValidator

def REQUIRED_INDICES : List String :=
  ["sh000001", "sz399001", "sh000300", "sh000905",
   "sh000852", "sh000016", "sh000688", "sz399006"]

/-- Errors of `_validate_item`: one per falsy required field
(REQUIRED_FIELDS order), then the non-positive-price check
(`if price and price <= 0`). -/
def validate_item_errors (item : MarketItem) : List Msg :=
  (if item.code.getD "" = "" then [.missing_field "code"] else [])
  ++ (if item.name.getD "" = "" then [.missing_field "name"] else [])
  ++ (if item.price.getD 0 = 0 then [.missing_field "price"] else [])
  ++ (if item.change_percent.getD 0 = 0 then [.missing_field "change_percent"] else [])
  ++ (let price := item.price.getD 0
      if price ≠ 0 ∧ price ≤ 0 then [.abnormal_price price] else [])

/-- Warnings of `_validate_item`: `if change and (change < -20 or change > 20)`. -/
def validate_item_warnings (item : MarketItem) : List Msg :=
  let change := item.change_percent.getD 0
  if change ≠ 0 ∧ (change < -20 ∨ 20 < change) then [.abnormal_change change] else []

/-- `MarketDataValidator.validate`.  The missing-indices set difference is
kept in REQUIRED_INDICES order (Python renders the set in arbitrary
order inside a single error string). -/
def validate (data : List MarketItem) : ValidationResult :=
  if data.isEmpty then ⟨false, [.market_empty], []⟩
  else
    let codes := data.filterMap (fun it => if it.code.getD "" ≠ "" then it.code else none)
    let missing := REQUIRED_INDICES.filter (fun c => ¬ codes.contains c)
    let errors := (if missing.isEmpty then [] else [.missing_indices missing])
      ++ data.flatMap validate_item_errors
    let warnings := data.flatMap validate_item_warnings
    ⟨errors.length == 0, errors, warnings⟩

end MarketDataValidator

/-- Truthiness of a contract value together with its price:
`contract and contract.get('price')`. -/
def quote_truthy : Option FuturesQuote → Bool
  | none => false
  | some q => q.price.getD 0 != 0

namespace FuturesDataValidator

def REQUIRED_CONTRACTS : List String := ["IF", "IC", "IM", "IH"]

def CONTRACT_TYPES : List ContractType := [.currentMonth, .nextQuarter, .farQuarter]

/-- `FuturesDataValidator.validate`.  The source fills the error and
warning lists in one pass over REQUIRED_CONTRACTS x CONTRACT_TYPES; the
two independent passes below produce the same two lists. -/
def validate (data : FuturesMap) : ValidationResult :=
  if data.isEmpty then ⟨false, [.futures_data_empty], []⟩
  else
    let errors := REQUIRED_CONTRACTS.flatMap (fun code =>
      match dictGet data code with
      | none => [.missing_futures code]
      | some contracts =>
        CONTRACT_TYPES.flatMap (fun ct =>
          if code = "IH" ∧ ct = .farQuarter then []
          else
            match dictGet contracts ct with
            | none => []
            | some contract =>
              if quote_truthy contract then [] else [.missing_contract_price code ct]))
    let warnings := REQUIRED_CONTRACTS.flatMap (fun code =>
      match dictGet data code with
      | none => []
      | some contracts =>
        CONTRACT_TYPES.flatMap (fun ct =>
          if code = "IH" ∧ ct = .farQuarter then []
          else
            match dictGet contracts ct with
            | none => [.missing_contract code ct]
            | some _ => []))
    ⟨errors.length == 0, errors, warnings⟩

end FuturesDataValidator

/-- One record of a news payload's `data` list. -/
structure NewsItem where
  title : Option String
  category : Option String
deriving DecidableEq, Repr

namespace NewsDataValidator

def CATEGORIES : List String := ["宏观政策", "行业动态", "国际市场", "公司重大事项", "其他"]

/-- Per-item errors: falsy title, then falsy category. -/
def item_errors (item : NewsItem) : List Msg :=
  (if item.title.getD "" = "" then [.missing_title] else [])
  ++ (if item.category.getD "" = "" then [.missing_category] else [])

/-- Per-item warnings: a truthy category outside CATEGORIES. -/
def item_warnings (item : NewsItem) : List Msg :=
  match item.category with
  | some c => if c ≠ "" ∧ ¬ CATEGORIES.contains c then [.unknown_category c] else []
  | none => []

/-- `NewsDataValidator.validate`. -/
def validate (data : List NewsItem) : ValidationResult :=
  if data.isEmpty then ⟨false, [.news_data_empty], []⟩
  else
    let errors := data.flatMap item_errors
    let warnings := (if data.length < 5 then [.news_too_few data.length] else [])
      ++ data.flatMap item_warnings
    ⟨errors.length == 0, errors, warnings⟩

end NewsDataValidator

/-- One record of a basis payload's `data` list (as the basis validator
reads it: four presence checks and two magnitude checks). -/
structure BasisItem where
  index : Option String
  contract : Option String
  futures_price : Option ℚ
  spot_price : Option ℚ
  basis : Option ℚ
  annualized_basis : Option ℚ
deriving DecidableEq, Repr

namespace BasisDataValidator

def item_errors (item : BasisItem) : List Msg :=
  (if item.index.getD "" = "" then [.missing_index] else [])
  ++ (if item.contract.getD "" = "" then [.missing_contract_field] else [])
  ++ (if item.futures_price.getD 0 = 0 then [.missing_futures_price] else [])
  ++ (if item.spot_price.getD 0 = 0 then [.missing_spot_price] else [])

def item_warnings (item : BasisItem) : List Msg :=
  (let b := item.basis.getD 0
   if b ≠ 0 ∧ 1000 < |b| then [.large_basis b] else [])
  ++ (let ab := item.annualized_basis.getD 0
      if ab ≠ 0 ∧ 50 < |ab| then [.abnormal_annualized ab] else [])

/-- `BasisDataValidator.validate` (no empty-data branch in the source). -/
def validate (data : List BasisItem) : ValidationResult :=
  let errors := data.flatMap item_errors
  let warnings := data.flatMap item_warnings
  ⟨errors.length == 0, errors, warnings⟩

end BasisDataValidator

def validate_market_data (data : List MarketItem) : ValidationResult :=
  MarketDataValidator.validate data

def validate_futures_data (data : FuturesMap) : ValidationResult :=
  FuturesDataValidator.validate data

def validate_news_data (data : List NewsItem) : ValidationResult :=
  NewsDataValidator.validate data

def validate_basis_data (data : List BasisItem) : ValidationResult :=
  BasisDataValidator.validate data

/-! ## Quality checks (src/utils/data_quality.py) -/

/-- The dict returned by each per-domain check (its presentation-only
fields `count` / `filled` / `total` are not modelled; `filled`/`total`
only feed the completeness warning, computed inline below). -/
structure CheckResult where
  issues : List Msg
  warnings : List Msg
  score : ℤ
deriving DecidableEq, Repr

/-- `check_market_data`.  A payload of `none` is a falsy payload dict; a
present payload carries its `data` list (a missing `data` key is the
empty list). -/
def check_market_data (data : Option (List MarketItem)) : CheckResult :=
  match data with
  | none => ⟨[.market_data_empty], [], 0⟩
  | some items =>
    if items.isEmpty then ⟨[.market_data_empty], [], 0⟩
    else
      let result := validate_market_data items
      let issues := result.errors
      let warnings := result.warnings
      ⟨issues, warnings, max 0 (100 - issues.length * 20 - warnings.length * 5)⟩

/-- Contracts counted as filled for one code in the completeness loop:
`contracts.get(ct) and contracts[ct].get('price')`, skipping 隔季 for IH. -/
def contract_filled (code : String) (contracts : Contracts) : ℕ :=
  (FuturesDataValidator.CONTRACT_TYPES.filter (fun ct =>
    ¬(ct = .farQuarter ∧ code = "IH") ∧ quote_truthy ((dictGet contracts ct).join))).length

/-- `check_futures_data`. -/
def check_futures_data (data : Option FuturesMap) : CheckResult :=
  match data with
  | none => ⟨[.futures_data_empty], [], 0⟩
  | some futures =>
    if futures.isEmpty then ⟨[.futures_data_empty], [], 0⟩
    else
      let result := validate_futures_data futures
      let total := (futures.map (fun p => if p.1 = "IH" then 2 else 3)).sum
      let filled := (futures.map (fun p => contract_filled p.1 p.2)).sum
      let issues := result.errors
      let warnings := result.warnings
        ++ (if filled < total then [.futures_incomplete filled total] else [])
      ⟨issues, warnings, max 0 (100 - issues.length * 15 - warnings.length * 5)⟩

/-- `check_news_data`: note it re-appends the same low-count warning the
news validator already produced. -/
def check_news_data (data : Option (List NewsItem)) : CheckResult :=
  match data with
  | none => ⟨[.news_data_empty], [], 0⟩
  | some items =>
    if items.isEmpty then ⟨[.news_data_empty], [], 0⟩
    else
      let result := validate_news_data items
      let issues := result.errors
      let warnings := result.warnings
        ++ (if items.length < 5 then [.news_too_few items.length] else [])
      ⟨issues, warnings, max 0 (100 - issues.length * 10 - warnings.length * 3)⟩

/-- `check_basis_data`. -/
def check_basis_data (data : Option (List BasisItem)) : CheckResult :=
  match data with
  | none => ⟨[.basis_data_empty], [], 0⟩
  | some items =>
    if items.isEmpty then ⟨[.basis_data_empty], [], 0⟩
    else
      let result := validate_basis_data items
      let issues := result.errors
      let warnings := result.warnings
      ⟨issues, warnings, max 0 (100 - issues.length * 10 - warnings.length * 3)⟩

/-- QualityResult of data_quality.py (the rendered `report` string is
presentation only and not modelled). -/
structure QualityResult where
  score : ℤ
  passed : Bool
  issues : List Msg
  warnings : List Msg
deriving DecidableEq, Repr

/-- `generate_quality_report`: the basis score joins the mean only when it
is positive; `//` is floor division (`Int.fdiv`). -/
def generate_quality_report (market_data : Option (List MarketItem))
    (futures_data : Option FuturesMap) (news_data : Option (List NewsItem))
    (basis_data : Option (List BasisItem)) : QualityResult :=
  let market_check := check_market_data market_data
  let futures_check := check_futures_data futures_data
  let news_check := check_news_data news_data
  let basis_check := check_basis_data basis_data
  let scores := [market_check.score, futures_check.score, news_check.score]
    ++ (if 0 < basis_check.score then [basis_check.score] else [])
  let total_score := if scores.isEmpty then 0 else Int.fdiv scores.sum scores.length
  { score := total_score
    passed := 70 ≤ total_score
    issues := market_check.issues ++ futures_check.issues ++ news_check.issues
    warnings := market_check.warnings ++ futures_check.warnings ++ news_check.warnings }

/-- The overall score exactly as claim C1 words it (a comparison
definition following the spec's words, not the source): the integer floor
of the mean of the per-domain scores of the domains with applicable data,
where market/futures/news count as applicable when their payload has a
nonempty data list and basis counts exactly when at least one basis
record was produced. -/
def claim_overall_score (market_data : Option (List MarketItem))
    (futures_data : Option FuturesMap) (news_data : Option (List NewsItem))
    (basis_data : Option (List BasisItem)) : ℤ :=
  let included :=
    (if market_data.getD [] ≠ [] then [(check_market_data market_data).score] else [])
    ++ (if futures_data.getD [] ≠ [] then [(check_futures_data futures_data).score] else [])
    ++ (if news_data.getD [] ≠ [] then [(check_news_data news_data).score] else [])
    ++ (if basis_data.getD [] ≠ [] then [(check_basis_data basis_data).score] else [])
  if included.isEmpty then 0 else Int.fdiv included.sum included.length

/-! ## Retry wrapper (src/utils/data_retry.py) -/

/-- Exception kinds distinguished by the retry machinery: the transient
network/timeout/IO kinds named in `retry_task`'s tuple, and
representative programmer/validation kinds (all are `Exception`
subclasses). -/
inductive ExcKind where
  | timeoutError
  | connectionError
  | osError
  | valueError
  | typeError
deriving DecidableEq, Repr

/-- The default `exceptions=(Exception,)` of `retry_with_backoff`:
every modelled kind is an `Exception` subclass, so every kind is caught. -/
def default_exceptions : ExcKind → Bool := fun _ => true

/-- The `exceptions=(TimeoutError, ConnectionError, OSError)` tuple that
`retry_task` installs (isinstance against the tuple). -/
def retry_task_exceptions : ExcKind → Bool
  | .timeoutError => true
  | .connectionError => true
  | .osError => true
  | _ => false

/-- Result of a wrapped run: its value, or an exception that escaped
uncaught on a given attempt, or the final `RetryError` wrapping the last
caught error; each with the list of back-off waits performed, in order. -/
inductive RetryOutcome (α : Type) where
  | ok (value : α) (waits : List ℚ)
  | uncaught (e : ExcKind) (attempt : ℕ) (waits : List ℚ)
  | retry_error (last : Option ExcKind) (waits : List ℚ)
deriving DecidableEq, Repr

/-- The `for attempt in range(1, max_retries + 1)` loop of `sync_wrapper`:
`remaining` counts the attempts still allowed (`attempt < max_retries`
is `0 < remaining` after consuming the current attempt); a wait of
`base_delay * backoff_factor ** (attempt - 1)` happens only when another
attempt follows.  `f n` is the outcome of the n-th call of the wrapped
function. -/
def retry_go {α : Type} (caught : ExcKind → Bool) (base_delay backoff_factor : ℚ)
    (f : ℕ → Except ExcKind α) :
    ℕ → ℕ → Option ExcKind → List ℚ → RetryOutcome α
  | _, 0, last_error, waits => .retry_error last_error waits
  | attempt, remaining + 1, _, waits =>
    match f attempt with
    | .ok a => .ok a waits
    | .error e =>
      if caught e then
        retry_go caught base_delay backoff_factor f (attempt + 1) remaining (some e)
          (if 0 < remaining then waits ++ [base_delay * backoff_factor ^ (attempt - 1)] else waits)
      else .uncaught e attempt waits

/-- `retry_with_backoff(...)` applied to a function, run once
(the sync wrapper; the async wrapper has identical structure). -/
def retry_with_backoff {α : Type} (max_retries : ℕ) (base_delay backoff_factor : ℚ)
    (caught : ExcKind → Bool) (f : ℕ → Except ExcKind α) : RetryOutcome α :=
  retry_go caught base_delay backoff_factor f 1 max_retries none []

/-- `retry_task`: max_retries 3 from every RetryConfig preset, default
base delay 10 and factor 2.0, and the transient-only exception tuple
(the preset `timeout` value is not consumed by the wrapper). -/
def retry_task {α : Type} (f : ℕ → Except ExcKind α) : RetryOutcome α :=
  retry_with_backoff 3 10 2 retry_task_exceptions f

/-! ## Helper lemmas -/

lemma length_beq_zero_eq_isEmpty {α : Type} (l : List α) : (l.length == 0) = l.isEmpty := by
  cases l <;> rfl

lemma mem_of_dictGet_eq_some {κ ν : Type} [DecidableEq κ] {l : List (κ × ν)} {k : κ} {v : ν}
    (h : dictGet l k = some v) : (k, v) ∈ l := by
  induction l with
  | nil => simp [dictGet] at h
  | cons p t ih =>
    obtain ⟨k', v'⟩ := p
    rw [dictGet] at h
    by_cases hk : k' = k
    · rw [if_pos hk] at h
      cases h
      cases hk
      exact List.mem_cons_self _ _
    · rw [if_neg hk] at h
      exact List.mem_cons_of_mem _ (ih h)

lemma dictGet_eq_some_of_mem {κ ν : Type} [DecidableEq κ] {l : List (κ × ν)} {k : κ} {v : ν}
    (nd : (l.map Prod.fst).Nodup) (h : (k, v) ∈ l) : dictGet l k = some v := by
  induction l with
  | nil => simp at h
  | cons p t ih =>
    obtain ⟨k', v'⟩ := p
    rw [List.map_cons, List.nodup_cons] at nd
    rcases List.mem_cons.mp h with heq | hmem
    · cases heq
      simp [dictGet]
    · have hk : k' ≠ k := by
        rintro rfl
        exact nd.1 (List.mem_map.mpr ⟨(k', v), hmem, rfl⟩)
      rw [dictGet, if_neg hk]
      exact ih nd.2 hmem

/-! ## Claim theorems -/

/-- C6: for every contract type and evaluation date, the trading-days
value actually used as the annualization divisor by the basis engine is
strictly positive: a computed count ≤ 0 is replaced by the fixed fallback
horizon (currentMonth 15, nextQuarter 35, farQuarter 70), so the division
defining annualized_basis never divides by zero or a negative count. -/
theorem C6_annualization_divisor_positive (contract_type : ContractType) (today : ℤ) :
    0 < effective_trading_days contract_type today := by
  simp only [effective_trading_days]
  by_cases h : get_trading_days_to_expiry contract_type today ≤ 0
  · rw [if_pos h]
    cases contract_type <;> decide
  · rw [if_neg h]
    omega

/-- C7: for every year y, the contract expiry of a nextQuarter contract
evaluated in December of year y equals the contract expiry of a
currentMonth contract evaluated in January of year y + 1. -/
theorem C7_december_rollover (y : ℤ) :
    get_contract_expiry .nextQuarter y 12 = get_contract_expiry .currentMonth (y + 1) 1 := by
  simp [get_contract_expiry]

/-- C9: every ValidationResult returned by any of the four domain
validators satisfies valid = (errors is empty), for every input. -/
theorem C9_valid_iff_no_errors :
    (∀ d : List MarketItem,
       (validate_market_data d).valid = (validate_market_data d).errors.isEmpty)
    ∧ (∀ d : FuturesMap,
       (validate_futures_data d).valid = (validate_futures_data d).errors.isEmpty)
    ∧ (∀ d : List NewsItem,
       (validate_news_data d).valid = (validate_news_data d).errors.isEmpty)
    ∧ (∀ d : List BasisItem,
       (validate_basis_data d).valid = (validate_basis_data d).errors.isEmpty) := by
  refine ⟨fun d => ?_, fun d => ?_, fun d => ?_, fun d => ?_⟩
  · unfold validate_market_data MarketDataValidator.validate
    split
    · rfl
    · exact length_beq_zero_eq_isEmpty _
  · unfold validate_futures_data FuturesDataValidator.validate
    split
    · rfl
    · exact length_beq_zero_eq_isEmpty _
  · unfold validate_news_data NewsDataValidator.validate
    split
    · rfl
    · exact length_beq_zero_eq_isEmpty _
  · unfold validate_basis_data BasisDataValidator.validate
    exact length_beq_zero_eq_isEmpty _

/-- C4 counterexample: under `retry_with_backoff`'s own default predicate
`exceptions=(Exception,)`, a validation-error kind IS retried — three
attempts and two waits are consumed before RetryError, contradicting the
claim that under the default predicate such a failure propagates
immediately with zero waits. -/
theorem C4_counterexample :
    retry_with_backoff 3 10 2 default_exceptions
        (fun _ => (Except.error .valueError : Except ExcKind ℕ))
      = .retry_error (some .valueError) [10, 20] := by
  simp only [retry_with_backoff, retry_go, default_exceptions, if_true]
  norm_num

/-- C4 (amended): under the retryable-failure predicate that `retry_task`
installs (TimeoutError / ConnectionError / OSError only), any
non-retryable failure kind propagates to the caller uncaught on its first
occurrence, with zero waits and no further attempts consumed (the result
does not depend on `f n` for n > 1). -/
theorem C4_nonretryable_propagates {α : Type} (max_retries : ℕ)
    (base_delay backoff_factor : ℚ) (f : ℕ → Except ExcKind α) (e : ExcKind)
    (hmax : 1 ≤ max_retries) (hnr : retry_task_exceptions e = false)
    (h1 : f 1 = .error e) :
    retry_with_backoff max_retries base_delay backoff_factor retry_task_exceptions f
      = .uncaught e 1 [] := by
  obtain ⟨r, rfl⟩ : ∃ r, max_retries = r + 1 := ⟨max_retries - 1, by omega⟩
  simp [retry_with_backoff, retry_go, h1, hnr]

theorem C4_nonretryable_propagates_witness :
    retry_with_backoff 3 10 2 retry_task_exceptions
        (fun _ => (Except.error .valueError : Except ExcKind ℕ))
      = .uncaught .valueError 1 [] :=
  C4_nonretryable_propagates 3 10 2 _ .valueError (by decide) (by decide) rfl

/-- C5: with max_retries 3, base_delay 10, backoff_factor 2 and every
attempt failing with a retryable kind, the wrapper performs exactly three
attempts separated by exactly two waits of 10s then 20s
(base_delay * backoff_factor ^ (attempt - 1), no wait after the last
attempt) and then raises RetryError wrapping the last underlying
failure. -/
theorem C5_retry_exhaustion {α : Type} (f : ℕ → Except ExcKind α) (e1 e2 e3 : ExcKind)
    (h1 : f 1 = .error e1) (h2 : f 2 = .error e2) (h3 : f 3 = .error e3)
    (r1 : retry_task_exceptions e1 = true) (r2 : retry_task_exceptions e2 = true)
    (r3 : retry_task_exceptions e3 = true) :
    retry_task f = .retry_error (some e3) [10, 20] := by
  simp only [retry_task, retry_with_backoff, retry_go, h1, h2, h3, r1, r2, r3, if_true]
  norm_num

theorem C5_retry_exhaustion_witness :
    retry_task (fun _ => (Except.error .timeoutError : Except ExcKind ℕ))
      = .retry_error (some .timeoutError) [10, 20] :=
  C5_retry_exhaustion _ .timeoutError .timeoutError .timeoutError rfl rfl rfl
    (by decide) (by decide) (by decide)

/-- The per-item warnings of the news validator never contain the
low-count warning (they are all unknown-category warnings). -/
lemma count_news_too_few_item_warnings (items : List NewsItem) (n : ℕ) :
    (items.flatMap NewsDataValidator.item_warnings).count (Msg.news_too_few n) = 0 := by
  rw [List.count_eq_zero]
  intro hmem
  rw [List.mem_flatMap] at hmem
  obtain ⟨it, -, hm⟩ := hmem
  unfold NewsDataValidator.item_warnings at hm
  rcases hcat : it.category with - | c
  · rw [hcat] at hm
    simp at hm
  · rw [hcat] at hm
    split at hm <;> simp_all

/-- C10: for every nonempty news payload with fewer than 5 items, the
news quality check's warnings list contains the low-count warning exactly
twice — once from the validator and once re-added by the check itself —
so at weight 3 per warning that condition costs 6 points, not 3. -/
theorem C10_low_count_warning_twice (items : List NewsItem)
    (hne : items ≠ []) (hlt : items.length < 5) :
    ((check_news_data (some items)).warnings).count (Msg.news_too_few items.length) = 2 := by
  have hie : items.isEmpty = false := by
    cases items
    · exact absurd rfl hne
    · rfl
  simp only [check_news_data, validate_news_data, NewsDataValidator.validate, hie,
    Bool.false_eq_true, if_false, if_pos hlt]
  simp [List.count_append, count_news_too_few_item_warnings, List.count_cons]

theorem C10_low_count_warning_twice_witness :
    (([(⟨some "标题", some "其他"⟩ : NewsItem)] : List NewsItem) ≠ [])
    ∧ (([(⟨some "标题", some "其他"⟩ : NewsItem)] : List NewsItem)).length < 5
    ∧ ((check_news_data (some [(⟨some "标题", some "其他"⟩ : NewsItem)])).warnings).count
        (Msg.news_too_few 1) = 2 :=
  ⟨by simp, by simp,
    C10_low_count_warning_twice [⟨some "标题", some "其他"⟩] (by simp) (by simp)⟩

/-- C1 (amended): the overall score is the integer floor of the mean of
the market, futures and news check scores — each of which is 0, yet still
counted, when its payload is absent or empty — together with the basis
check score if and only if that score is positive (not: iff at least one
basis record exists). -/
theorem C1_overall_score_floor_mean (market_data : Option (List MarketItem))
    (futures_data : Option FuturesMap) (news_data : Option (List NewsItem))
    (basis_data : Option (List BasisItem)) :
    (generate_quality_report market_data futures_data news_data basis_data).score =
      Int.fdiv
        ((check_market_data market_data).score + (check_futures_data futures_data).score
          + (check_news_data news_data).score
          + (if 0 < (check_basis_data basis_data).score
             then (check_basis_data basis_data).score else 0))
        (3 + (if 0 < (check_basis_data basis_data).score then 1 else 0)) := by
  simp only [generate_quality_report]
  by_cases hb : 0 < (check_basis_data basis_data).score
  · rw [if_pos hb, if_pos hb]
    simp
    rw [if_pos hb]
    norm_num
    congr 1
    ring
  · rw [if_neg hb, if_neg hb]
    simp
    rw [if_neg hb]
    norm_num
    congr 1
    ring

/-- A fully populated futures payload: all four codes, every expected
contract present with a truthy price (scores 100). -/
def full_futures : FuturesMap :=
  [("IF", [(.currentMonth, some ⟨some 4000⟩), (.nextQuarter, some ⟨some 4000⟩),
           (.farQuarter, some ⟨some 4000⟩)]),
   ("IC", [(.currentMonth, some ⟨some 5000⟩), (.nextQuarter, some ⟨some 5000⟩),
           (.farQuarter, some ⟨some 5000⟩)]),
   ("IM", [(.currentMonth, some ⟨some 6000⟩), (.nextQuarter, some ⟨some 6000⟩),
           (.farQuarter, some ⟨some 6000⟩)]),
   ("IH", [(.currentMonth, some ⟨some 2600⟩), (.nextQuarter, some ⟨some 2600⟩)])]

/-- Five well-formed news items (scores 100). -/
def full_news : List NewsItem :=
  [⟨some "标题一", some "其他"⟩, ⟨some "标题二", some "其他"⟩, ⟨some "标题三", some "其他"⟩,
   ⟨some "标题四", some "其他"⟩, ⟨some "标题五", some "其他"⟩]

/-- C1 counterexample: with an absent market payload (score 0, no
applicable data), perfect futures and news payloads (each 100) and no
basis data, the code averages over market, futures and news — including
the empty market domain as a 0 — giving floor((0+100+100)/3) = 66, while
the claim's rule (exclude domains with no applicable data) prescribes
floor((100+100)/2) = 100. -/
theorem C1_counterexample :
    (generate_quality_report none (some full_futures) (some full_news) none).score = 66
    ∧ claim_overall_score none (some full_futures) (some full_news) none = 100
    ∧ (66 : ℤ) ≠ 100 := by
  refine ⟨?_, ?_, by decide⟩ <;> decide

/-- The spec's worked example inputs: spot sh000300 at 4000.00, futures
IF currentMonth at 4010.00. -/
def spot_market : List MarketItem := [⟨some "sh000300", some "沪深300", some 4000, some 1⟩]

def if_futures : FuturesMap := [("IF", [(.currentMonth, some ⟨some 4010⟩)])]

/-- 2026-01-05, a Monday with 10 trading days to the January expiry
2026-01-16 (the third Friday). -/
def jan5_2026 : ℤ := daysFromCivil 2026 1 5

/-- 2026-01-12, a Monday with 5 trading days to the January expiry. -/
def jan12_2026 : ℤ := daysFromCivil 2026 1 12

lemma effective_trading_days_jan5 :
    effective_trading_days .currentMonth jan5_2026 = 10 := by decide

lemma effective_trading_days_jan12 :
    effective_trading_days .currentMonth jan12_2026 = 5 := by decide

lemma analyze_basis_jan5_eval :
    analyze_basis (some spot_market) (some if_futures) jan5_2026 =
      [{ index := "IF", index_name := "沪深300", contract := .currentMonth,
         futures_price := 4010, spot_price := 4000, basis := 10,
         basis_percent := 1 / 4, annualized_basis := 228 / 25, trading_days := 10 }] := by
  norm_num +decide [analyze_basis, if_futures, spot_market, analyze_basis_code,
    analyze_basis_contract, basis_record, code_spot_price, build_spot_prices, dictGet,
    Function.update, sort_by_annualized_desc, List.insertionSort, List.orderedInsert,
    effective_trading_days_jan5, pyRound2, roundHalfEven, Int.fract]

lemma analyze_basis_jan12_eval :
    analyze_basis (some spot_market) (some if_futures) jan12_2026 =
      [{ index := "IF", index_name := "沪深300", contract := .currentMonth,
         futures_price := 4010, spot_price := 4000, basis := 10,
         basis_percent := 1 / 4, annualized_basis := 73 / 4, trading_days := 5 }] := by
  norm_num +decide [analyze_basis, if_futures, spot_market, analyze_basis_code,
    analyze_basis_contract, basis_record, code_spot_price, build_spot_prices, dictGet,
    Function.update, sort_by_annualized_desc, List.insertionSort, List.orderedInsert,
    effective_trading_days_jan12, pyRound2, roundHalfEven, Int.fract]

/-- C8 counterexample: on the spec's worked example (spot 4000.00,
futures 4010.00, 10 trading days to expiry), the stored annualized basis
is 9.12 (= 228/25), not 9.13: the unrounded value 0.25 * 365/10 = 9.125
is a tie at two decimals and Python's round-half-to-even rounds it down
to 9.12. -/
theorem C8_counterexample :
    ((analyze_basis (some spot_market) (some if_futures) jan5_2026).map
        BasisRecord.annualized_basis) = [228 / 25]
    ∧ (228 / 25 : ℚ) ≠ 913 / 100 := by
  rw [analyze_basis_jan5_eval]
  norm_num

/-- C8 (amended): for spot 4000.00 (sh000300) and futures 4010.00
(IF currentMonth) evaluated on 2026-01-05 (10 trading days to expiry),
the produced record has basis 10.00, basis percent 0.25 and annualized
basis 9.12 = round-half-to-even of 0.25 * 365/10 = 9.125, the single
fixed rounding rule being Python's banker's rounding at two decimals. -/
theorem C8_worked_example :
    analyze_basis (some spot_market) (some if_futures) jan5_2026 =
      [{ index := "IF", index_name := "沪深300", contract := .currentMonth,
         futures_price := 4010, spot_price := 4000, basis := 10,
         basis_percent := 1 / 4, annualized_basis := 228 / 25, trading_days := 10 }] :=
  analyze_basis_jan5_eval

/-- C2 counterexample: the basis analysis is NOT a function of its two
payload inputs alone — the source reads the current date through
`get_trading_days_to_expiry(contract_type)` (datetime.now()): the same
two payloads evaluated on 2026-01-05 and on 2026-01-12 give different
record lists (trading_days 10 vs 5, annualized 9.12 vs 18.25). -/
theorem C2_counterexample :
    analyze_basis (some spot_market) (some if_futures) jan5_2026
      ≠ analyze_basis (some spot_market) (some if_futures) jan12_2026 := by
  rw [analyze_basis_jan5_eval, analyze_basis_jan12_eval]
  simp

/-- C2 (amended): the basis analysis is a pure deterministic function of
its two payload inputs and the evaluation date, the date entering only
through the trading-days-to-expiry values: any two runs on identical
inputs whose dates give identical trading-day distances (in particular,
runs at the same date) produce element-for-element identical,
identically-ordered record lists. -/
theorem C2_deterministic (market_data : Option (List MarketItem))
    (futures_data : Option FuturesMap) (d1 d2 : ℤ)
    (h : ∀ ct, get_trading_days_to_expiry ct d1 = get_trading_days_to_expiry ct d2) :
    analyze_basis market_data futures_data d1 = analyze_basis market_data futures_data d2 := by
  have heff : ∀ ct, effective_trading_days ct d1 = effective_trading_days ct d2 := by
    intro ct
    simp only [effective_trading_days, h]
  have hrec : ∀ fc sc sp ct q,
      basis_record fc sc sp d1 ct q = basis_record fc sc sp d2 ct q := by
    intro fc sc sp ct q
    simp only [basis_record, heff]
  have hcon : ∀ fc sc sp c,
      analyze_basis_contract fc sc sp d1 c = analyze_basis_contract fc sc sp d2 c := by
    intro fc sc sp c
    cases hc : c.2 with
    | none => simp [analyze_basis_contract, hc]
    | some q => simp only [analyze_basis_contract, hc, hrec]
  have hcode : ∀ spot p, analyze_basis_code spot d1 p = analyze_basis_code spot d2 p := by
    intro spot p
    simp only [analyze_basis_code]
    rw [show analyze_basis_contract p.1 (dictGet FUTURES_SPOT_MAP p.1)
          (code_spot_price spot p.1) d1
        = analyze_basis_contract p.1 (dictGet FUTURES_SPOT_MAP p.1)
          (code_spot_price spot p.1) d2
      from funext fun c => hcon _ _ _ c]
  cases market_data with
  | none => rfl
  | some items =>
    cases futures_data with
    | none => rfl
    | some futures =>
      simp only [analyze_basis]
      rw [show analyze_basis_code (build_spot_prices items) d1
            = analyze_basis_code (build_spot_prices items) d2
          from funext fun p => hcode _ p]

theorem C2_deterministic_witness :
    analyze_basis (some spot_market) (some if_futures) jan5_2026
      = analyze_basis (some spot_market) (some if_futures) jan5_2026 :=
  C2_deterministic (some spot_market) (some if_futures) jan5_2026 jan5_2026
    (fun _ => rfl)

/-- Market payload with a NEGATIVE sh000300 price and a positive sh000905
price. -/
def neg_market : List MarketItem :=
  [⟨some "sh000300", some "沪深300", some (-4000), some 1⟩,
   ⟨some "sh000905", some "中证500", some 5000, some 1⟩]

/-- Futures payload with a positive IF price and a NEGATIVE IC price. -/
def neg_futures : FuturesMap :=
  [("IF", [(.currentMonth, some ⟨some 4010⟩)]),
   ("IC", [(.currentMonth, some ⟨some (-10)⟩)])]

lemma analyze_basis_neg_eval :
    analyze_basis (some neg_market) (some neg_futures) jan5_2026 =
      [{ index := "IC", index_name := "中证500", contract := .currentMonth,
         futures_price := -10, spot_price := 5000, basis := -5010,
         basis_percent := -501 / 5, annualized_basis := -36573 / 10, trading_days := 10 },
       { index := "IF", index_name := "沪深300", contract := .currentMonth,
         futures_price := 4010, spot_price := -4000, basis := 8010,
         basis_percent := -801 / 4, annualized_basis := -182728 / 25, trading_days := 10 }] := by
  norm_num +decide [analyze_basis, neg_futures, neg_market, analyze_basis_code,
    analyze_basis_contract, basis_record, code_spot_price, build_spot_prices, dictGet,
    Function.update, sort_by_annualized_desc, List.insertionSort, List.orderedInsert,
    effective_trading_days_jan5, pyRound2, roundHalfEven, Int.fract]

/-- C3 counterexample: the truthiness checks of analyze_basis only skip a
ZERO price, not a non-positive one — with spot sh000300 at -4000 a record
for (IF, currentMonth) is still emitted, and with futures IC at -10 and a
positive spot a record for (IC, currentMonth) is still emitted, both
contradicting the claim that such pairs produce no record. -/
theorem C3_counterexample :
    (∃ r ∈ analyze_basis (some neg_market) (some neg_futures) jan5_2026,
        r.index = "IF" ∧ r.contract = ContractType.currentMonth
          ∧ r.spot_price = -4000 ∧ r.spot_price < 0)
    ∧ (∃ r ∈ analyze_basis (some neg_market) (some neg_futures) jan5_2026,
        r.index = "IC" ∧ r.contract = ContractType.currentMonth
          ∧ r.futures_price = -10 ∧ r.futures_price < 0) := by
  rw [analyze_basis_neg_eval]
  constructor
  · refine ⟨_, List.mem_cons_of_mem _ (List.mem_cons_self _ _), rfl, rfl, rfl, by norm_num⟩
  · refine ⟨_, List.mem_cons_self _ _, rfl, rfl, rfl, by norm_num⟩

lemma mem_sort_by_annualized_desc (l : List BasisRecord) (r : BasisRecord) :
    r ∈ sort_by_annualized_desc l ↔ r ∈ l :=
  (List.perm_insertionSort _ l).mem_iff

lemma mem_analyze_basis_contract {fc : String} {sc : Option String} {sp : ℚ} {d : ℤ}
    {c : ContractType × Option FuturesQuote} {r : BasisRecord} :
    r ∈ analyze_basis_contract fc sc sp d c ↔
      ∃ q, c.2 = some q ∧ q.price.getD 0 ≠ 0 ∧ r = basis_record fc sc sp d c.1 q := by
  cases hcq : c.2 with
  | none => simp [analyze_basis_contract, hcq]
  | some q =>
    simp only [analyze_basis_contract, hcq]
    by_cases hq : q.price.getD 0 = 0
    · simp [hq]
    · simp [hq]

/-- C3 (amended): for every (futures_code, contract_type) pair, a
BasisRecord is emitted if and only if the mapped spot price exists with a
NONZERO (truthy) value and the futures quote exists (truthy) with a
nonzero price; a pair with a missing spot mapping, zero spot price,
missing/falsy quote or zero quote price is silently skipped (the
function is total: skipping produces no error).  The two nodup
hypotheses state that the payloads are genuine dicts (unique keys). -/
theorem C3_emission_iff (items : List MarketItem) (futures : FuturesMap) (today : ℤ)
    (fc : String) (ct : ContractType)
    (hk : (futures.map Prod.fst).Nodup)
    (hc : ∀ p ∈ futures, ((p.2 : Contracts).map Prod.fst).Nodup) :
    (∃ r ∈ analyze_basis (some items) (some futures) today,
        r.index = fc ∧ r.contract = ct)
    ↔ (spot_price_for items fc ≠ 0 ∧
        ∃ cs, dictGet futures fc = some cs ∧
          ∃ q, dictGet cs ct = some (some q) ∧ q.price.getD 0 ≠ 0) := by
  constructor
  · rintro ⟨r, hr, hidx, hct⟩
    simp only [analyze_basis] at hr
    rw [mem_sort_by_annualized_desc, List.mem_flatMap] at hr
    obtain ⟨p, hp, hrp⟩ := hr
    obtain ⟨fc', cs⟩ := p
    simp only [analyze_basis_code] at hrp
    by_cases hsp : code_spot_price (build_spot_prices items) fc' = 0
    · rw [if_pos hsp] at hrp
      simp at hrp
    · rw [if_neg hsp] at hrp
      rw [List.mem_flatMap] at hrp
      obtain ⟨c, hcmem, hrc⟩ := hrp
      obtain ⟨ct', cd⟩ := c
      rw [mem_analyze_basis_contract] at hrc
      obtain ⟨q, hcd, hqp, rfl⟩ := hrc
      have hfc : fc' = fc := hidx
      have hctc : ct' = ct := hct
      subst hfc
      subst hctc
      cases hcd
      exact ⟨hsp, cs, dictGet_eq_some_of_mem hk hp, q,
        dictGet_eq_some_of_mem (hc _ hp) hcmem, hqp⟩
  · rintro ⟨hsp, cs, hcs, q, hq, hqp⟩
    have hsp' : code_spot_price (build_spot_prices items) fc ≠ 0 := hsp
    refine ⟨basis_record fc (dictGet FUTURES_SPOT_MAP fc)
        (code_spot_price (build_spot_prices items) fc) today ct q, ?_, rfl, rfl⟩
    simp only [analyze_basis]
    rw [mem_sort_by_annualized_desc, List.mem_flatMap]
    refine ⟨(fc, cs), mem_of_dictGet_eq_some hcs, ?_⟩
    simp only [analyze_basis_code]
    rw [if_neg hsp', List.mem_flatMap]
    refine ⟨(ct, some q), mem_of_dictGet_eq_some hq, ?_⟩
    rw [mem_analyze_basis_contract]
    exact ⟨q, rfl, hqp, rfl⟩

theorem C3_emission_iff_witness :
    ∃ r ∈ analyze_basis (some spot_market) (some if_futures) jan5_2026,
      r.index = "IF" ∧ r.contract = ContractType.currentMonth :=
  (C3_emission_iff spot_market if_futures jan5_2026 "IF" .currentMonth
      (by decide) (by decide)).mpr
    ⟨by norm_num +decide [spot_price_for, code_spot_price, build_spot_prices, spot_market,
        dictGet, Function.update],
     [(.currentMonth, some ⟨some 4010⟩)], by decide,
     ⟨some 4010⟩, by decide, by norm_num⟩
